import Mathlib

/-!
# Verification of the train-like-aj punch classifier, scoring engine and drill scheduler

Shallow embedding of the four JavaScript source files of the repository:

* `src/unnamed/part_000` — the "arcade" variant of `punch.js` (relaxed thresholds,
  hand-keyed `PunchCooldown`, six punch classes);
* the "strict" V2 variant of `punch.js` embedded verbatim in `src/README.md`
  (eight punch classes, class-keyed `PunchCooldown`);
* `src/src/js/scoring.js` — `SCORING_CONFIG`, `calculateScore`,
  `calculateComboMultiplier`;
* `src/src/js/game.js` — the `FocusMittDrill` state machine, and the `ComboDrill`
  sequence trainer embedded in `src/README.md`.

Conventions of the embedding:

* JavaScript numbers are modelled as `ℚ` (all constants of the sources are exact
  in ℚ); timestamps (`performance.now()` / `Date.now()`) are `ℚ` parameters.
* Wrist speeds and elbow angles are produced by the stateful `SpeedTracker`
  (moving average over wall-clock samples) and `computeAngle` (`atan2`); they are
  taken as input fields of the frame records, exactly as the classifier body
  consumes them.  All remaining kinematic quantities (extensions, ratios,
  scaled y-coordinates) are computed from the landmark points as in the source.
* DOM, audio and particle side effects are dropped; each mutating method becomes
  a function from state to state (plus its returned / awarded value).
-/

/-! ## JavaScript string helpers (modelled on `List Char` so proofs can compute) -/

/-- One occurrence test, `s.includes(pat)` of JavaScript. -/
def hasSub : List Char → List Char → Bool
  | [], pat => pat.isEmpty
  | c :: rest, pat => pat.isPrefixOf (c :: rest) || hasSub rest pat

/-- JavaScript `String.prototype.includes`. -/
def jsIncludes (s pat : String) : Bool :=
  hasSub s.data pat.data

/-- JavaScript `String.prototype.replace(string, string)`: replaces the FIRST
occurrence only. -/
def replaceFirst : List Char → List Char → List Char → List Char
  | [], _pat, _r => []
  | c :: rest, pat, r =>
    if pat.isPrefixOf (c :: rest) then r ++ (c :: rest).drop pat.length
    else c :: replaceFirst rest pat r

/-- JavaScript one-shot string replace lifted to `String`. -/
def jsReplace (s pat r : String) : String :=
  String.mk (replaceFirst s.data pat.data r.data)

/-- JavaScript `toLowerCase` (the punch names are ASCII). -/
def strToLower (s : String) : String :=
  String.mk (s.data.map Char.toLower)

/-- JavaScript `.replace(/\s+/g, '')` / `.replace(/\s/g, '')`: every whitespace
character of the punch-name vocabulary is a plain space. -/
def stripSpaces (s : String) : String :=
  String.mk (s.data.filter (fun c => c ≠ ' '))

/-! ## Arcade classifier — `src/unnamed/part_000` -/

/-- A normalized 2-D landmark point. -/
structure Pt where
  x : ℚ
  y : ℚ
deriving DecidableEq

/-- Cooldown table state shared by both `PunchCooldown` variants:
`cooldownMs`, `lastPunchTime`, `lastPunchType`. -/
structure Cooldown where
  cooldownMs : ℚ
  lastPunchTime : ℚ
  lastPunchType : Option String
deriving DecidableEq

/-- `punchType.includes('Left') || punchType === 'Jab'` — the arcade cooldown's
notion of a left-hand punch. -/
def isLeftHand (punchType : String) : Bool :=
  jsIncludes punchType "Left" || punchType == "Jab"

/-- `this.lastPunchType && (this.lastPunchType.includes('Left') || this.lastPunchType === 'Jab')`:
whether the previously fired punch (if any) was a left-hand punch. -/
def wasLeftOf (lastPunchType : Option String) : Bool :=
  match lastPunchType with
  | none => false
  | some t => isLeftHand t

/-- `PunchCooldown.canPunch` of `src/unnamed/part_000` (arcade variant):
cooldown applies only when punching with the SAME hand consecutively.
Returns the decision and the updated table (mutated only on `true`). -/
def canPunch (c : Cooldown) (punchType : String) (now : ℚ) : Bool × Cooldown :=
  let isLeft := isLeftHand punchType
  let wasLeft := wasLeftOf c.lastPunchType
  let isSameHand := (isLeft && wasLeft) || (!isLeft && !wasLeft && c.lastPunchType.isSome)
  if !isSameHand || decide (now - c.lastPunchTime > c.cooldownMs) then
    (true, { c with lastPunchTime := now, lastPunchType := some punchType })
  else
    (false, c)

/-- `PunchCooldown.canPunch` of the V2 `punch.js` embedded in `src/README.md`
(strict variant): a class re-fires if its cooldown elapsed or the class changed. -/
def canPunchV2 (c : Cooldown) (punchType : String) (now : ℚ) : Bool × Cooldown :=
  if decide (now - c.lastPunchTime > c.cooldownMs) || (c.lastPunchType != some punchType) then
    (true, { c with lastPunchTime := now, lastPunchType := some punchType })
  else
    (false, c)

/-- Input of the arcade `detectPunch`: the landmark points it reads, the frame
width, and the wrist speeds / elbow angles delivered by `SpeedTracker` /
`computeAngle`. -/
structure ArcadeFrame where
  leftShoulder : Pt
  rightShoulder : Pt
  leftWrist : Pt
  rightWrist : Pt
  width : ℚ
  leftSpeed : ℚ
  rightSpeed : ℚ
  leftAngle : ℚ
  rightAngle : ℚ
deriving DecidableEq

namespace ArcadeFrame

/-- `Math.abs(leftShoulder.x - rightShoulder.x) * width`. -/
def shoulderWidth (f : ArcadeFrame) : ℚ := |f.leftShoulder.x - f.rightShoulder.x| * f.width

/-- `Math.abs(leftWrist.x - leftShoulder.x) * width`. -/
def leftExtensionDist (f : ArcadeFrame) : ℚ := |f.leftWrist.x - f.leftShoulder.x| * f.width

/-- `Math.abs(rightWrist.x - rightShoulder.x) * width`. -/
def rightExtensionDist (f : ArcadeFrame) : ℚ := |f.rightWrist.x - f.rightShoulder.x| * f.width

/-- `leftExtensionDist / shoulderWidth` (ℚ sets `x / 0 = 0`; a zero shoulder
width is a degenerate frame in JavaScript as well, producing `NaN`/`Infinity`). -/
def leftExtRatio (f : ArcadeFrame) : ℚ := f.leftExtensionDist / f.shoulderWidth

/-- `rightExtensionDist / shoulderWidth`. -/
def rightExtRatio (f : ArcadeFrame) : ℚ := f.rightExtensionDist / f.shoulderWidth

/-- Arcade threshold `MIN_SPEED = 40`. -/
def MIN_SPEED : ℚ := 40

/-- Arcade threshold `MIN_EXT_RATIO = 0.5`. -/
def MIN_EXT_RATIO : ℚ := 0.5

/-- Condition of branch 1 (JAB): `leftSpeed > MIN_SPEED && leftExtRatio > MIN_EXT_RATIO`. -/
def predJab (f : ArcadeFrame) : Bool :=
  decide (f.leftSpeed > MIN_SPEED) && decide (f.leftExtRatio > MIN_EXT_RATIO)

/-- Condition of branch 2 (CROSS). -/
def predCross (f : ArcadeFrame) : Bool :=
  decide (f.rightSpeed > MIN_SPEED) && decide (f.rightExtRatio > MIN_EXT_RATIO)

/-- Condition of branch 3 (LEFT HOOK): high speed, bent arm, wrist high. -/
def predLeftHook (f : ArcadeFrame) : Bool :=
  decide (f.leftSpeed > MIN_SPEED) && decide (f.leftExtRatio < 0.7) &&
    decide (f.leftWrist.y < f.leftShoulder.y + 0.2)

/-- Condition of branch 4 (RIGHT HOOK). -/
def predRightHook (f : ArcadeFrame) : Bool :=
  decide (f.rightSpeed > MIN_SPEED) && decide (f.rightExtRatio < 0.7) &&
    decide (f.rightWrist.y < f.rightShoulder.y + 0.2)

/-- Condition of branch 5 (LEFT UPPERCUT). -/
def predLeftUppercut (f : ArcadeFrame) : Bool :=
  decide (f.leftSpeed > MIN_SPEED) && decide (f.leftWrist.y > f.leftShoulder.y - 0.2) &&
    decide (f.leftAngle < 120)

/-- Condition of branch 6 (RIGHT UPPERCUT). -/
def predRightUppercut (f : ArcadeFrame) : Bool :=
  decide (f.rightSpeed > MIN_SPEED) && decide (f.rightWrist.y > f.rightShoulder.y - 0.2) &&
    decide (f.rightAngle < 120)

end ArcadeFrame

/-- One early-return branch of `detectPunch`: if the threshold predicate holds
and the cooldown gate opens, return the class (with the gate's updated table);
otherwise continue with the threaded table (`gate` mutates only on success). -/
def detectStep (gate : Cooldown → String → ℚ → Bool × Cooldown)
    (pred : Bool) (name : String) (c : Cooldown) (now : ℚ)
    (rest : Cooldown → Option String × Cooldown) : Option String × Cooldown :=
  if pred then
    let r := gate c name now
    if r.1 then (some name, r.2) else rest r.2
  else rest c

/-- `detectPunch` of `src/unnamed/part_000`: the six arcade branches in source
order (Jab, Cross, Left Hook, Right Hook, Left Uppercut, Right Uppercut),
falling through to `punch: null`.  `extras`/`confidence`/`formTip` are
presentation payload and are not modelled. -/
def detectPunch (f : ArcadeFrame) (c : Cooldown) (now : ℚ) : Option String × Cooldown :=
  detectStep canPunch (f.predJab) "Jab" c now fun c1 =>
  detectStep canPunch (f.predCross) "Cross" c1 now fun c2 =>
  detectStep canPunch (f.predLeftHook) "Left Hook" c2 now fun c3 =>
  detectStep canPunch (f.predRightHook) "Right Hook" c3 now fun c4 =>
  detectStep canPunch (f.predLeftUppercut) "Left Uppercut" c4 now fun c5 =>
  detectStep canPunch (f.predRightUppercut) "Right Uppercut" c5 now fun c6 =>
  (none, c6)

/-- The arcade classifier's classes in their evaluation order, paired with the
frame's threshold predicates (the declarative priority list of the spec). -/
def arcadePriority (f : ArcadeFrame) : List (String × Bool) :=
  [("Jab", f.predJab), ("Cross", f.predCross),
   ("Left Hook", f.predLeftHook), ("Right Hook", f.predRightHook),
   ("Left Uppercut", f.predLeftUppercut), ("Right Uppercut", f.predRightUppercut)]

/-- `PUNCH_TYPES` exported by `src/unnamed/part_000`. -/
def PUNCH_TYPES : List String :=
  ["Jab", "Cross", "Left Hook", "Right Hook", "Left Uppercut", "Right Uppercut"]

/-- Generic evaluator for a priority list of (class, predicate) branches,
threading the cooldown table exactly like the chain of early returns. -/
def detectChain (gate : Cooldown → String → ℚ → Bool × Cooldown) :
    List (String × Bool) → Cooldown → ℚ → Option String × Cooldown
  | [], c, _now => (none, c)
  | p :: ps, c, now => detectStep gate p.2 p.1 c now fun c2 => detectChain gate ps c2 now

/-- Both cooldown gates leave the table untouched when they refuse. -/
theorem canPunch_frozen (c : Cooldown) (pt : String) (now : ℚ)
    (h : (canPunch c pt now).1 = false) : (canPunch c pt now).2 = c := by
  revert h
  unfold canPunch
  dsimp only
  split
  · intro h
    simp at h
  · intro _
    rfl

/-- `canPunchV2` leaves the table untouched when it refuses. -/
theorem canPunchV2_frozen (c : Cooldown) (pt : String) (now : ℚ)
    (h : (canPunchV2 c pt now).1 = false) : (canPunchV2 c pt now).2 = c := by
  revert h
  unfold canPunchV2
  split
  · intro h
    simp at h
  · intro _
    rfl

/-- The chain of early returns computes the first class of the priority list
whose predicate holds AND whose gate opens on the ORIGINAL table — failed gate
checks do not mutate the table, so later classes see the same state. -/
theorem detectChain_fst (gate : Cooldown → String → ℚ → Bool × Cooldown)
    (hg : ∀ c pt now, (gate c pt now).1 = false → (gate c pt now).2 = c)
    (ps : List (String × Bool)) (c : Cooldown) (now : ℚ) :
    (detectChain gate ps c now).1 =
      (ps.find? fun p => p.2 && (gate c p.1 now).1).map Prod.fst := by
  induction ps generalizing c with
  | nil => rfl
  | cons p ps ih =>
    by_cases hp : p.2
    · rcases hgate : (gate c p.1 now).1 with _ | _
      · have hfroz := hg c p.1 now hgate
        have : (detectChain gate (p :: ps) c now) = detectChain gate ps c now := by
          simp [detectChain, detectStep, hp, hgate, hfroz]
        rw [this, ih c, List.find?_cons_of_neg]
        simp [hp, hgate]
      · have : (detectChain gate (p :: ps) c now).1 = some p.1 := by
          simp [detectChain, detectStep, hp, hgate]
        rw [this, List.find?_cons_of_pos]
        · rfl
        · simp [hp, hgate]
    · have : (detectChain gate (p :: ps) c now) = detectChain gate ps c now := by
        simp [detectChain, detectStep, hp]
      rw [this, ih c, List.find?_cons_of_neg]
      simp [hp]

/-- The literal chain of `detectPunch` is the generic chain on its priority list. -/
theorem detectPunch_eq_chain (f : ArcadeFrame) (c : Cooldown) (now : ℚ) :
    detectPunch f c now = detectChain canPunch (arcadePriority f) c now := rfl

/-! ## Strict V2 classifier — `punch.js` embedded in `src/README.md` -/

/-- Input of the V2 `detectPunch`: landmark points, frame size and the
`SpeedTracker`/`computeAngle` outputs it consumes (nose and elbows are read
only to derive the angles, which are input fields here). -/
structure V2Frame where
  leftShoulder : Pt
  rightShoulder : Pt
  leftWrist : Pt
  rightWrist : Pt
  leftHip : Pt
  rightHip : Pt
  width : ℚ
  height : ℚ
  leftSpeed : ℚ
  rightSpeed : ℚ
  leftAngle : ℚ
  rightAngle : ℚ
deriving DecidableEq

namespace V2Frame

/-- `Math.abs(leftWrist.x * width - leftShoulder.x * width)`. -/
def leftExtension (f : V2Frame) : ℚ := |f.leftWrist.x * f.width - f.leftShoulder.x * f.width|

/-- `Math.abs(rightWrist.x * width - rightShoulder.x * width)`. -/
def rightExtension (f : V2Frame) : ℚ := |f.rightWrist.x * f.width - f.rightShoulder.x * f.width|

/-- `leftWrist.y * height`. -/
def leftWristY (f : V2Frame) : ℚ := f.leftWrist.y * f.height

/-- `rightWrist.y * height`. -/
def rightWristY (f : V2Frame) : ℚ := f.rightWrist.y * f.height

/-- `leftShoulder.y * height`. -/
def leftShoulderY (f : V2Frame) : ℚ := f.leftShoulder.y * f.height

/-- `rightShoulder.y * height`. -/
def rightShoulderY (f : V2Frame) : ℚ := f.rightShoulder.y * f.height

/-- `leftHip.y * height`. -/
def leftHipY (f : V2Frame) : ℚ := f.leftHip.y * f.height

/-- `rightHip.y * height`. -/
def rightHipY (f : V2Frame) : ℚ := f.rightHip.y * f.height

/-- V2 threshold `MIN_SPEED = 70`. -/
def MIN_SPEED : ℚ := 70

/-- V2 threshold `MIN_EXTENSION = 100`. -/
def MIN_EXTENSION : ℚ := 100

/-- V2 threshold `MIN_STRAIGHT_ANGLE = 135`. -/
def MIN_STRAIGHT_ANGLE : ℚ := 135

/-- V2 threshold `MAX_HOOK_ANGLE = 110`. -/
def MAX_HOOK_ANGLE : ℚ := 110

/-- V2 threshold `MIN_UPPERCUT_SPEED = 60`. -/
def MIN_UPPERCUT_SPEED : ℚ := 60

/-- Branch 1 (JAB): fast, extended, straight, wrist within ±50 of shoulder level. -/
def predJab (f : V2Frame) : Bool :=
  decide (f.leftSpeed > MIN_SPEED) && decide (f.leftExtension > MIN_EXTENSION) &&
    decide (f.leftAngle > MIN_STRAIGHT_ANGLE) &&
    decide (f.leftWristY < f.leftShoulderY + 50) && decide (f.leftWristY > f.leftShoulderY - 50)

/-- Branch 2 (CROSS). -/
def predCross (f : V2Frame) : Bool :=
  decide (f.rightSpeed > MIN_SPEED) && decide (f.rightExtension > MIN_EXTENSION) &&
    decide (f.rightAngle > MIN_STRAIGHT_ANGLE) &&
    decide (f.rightWristY < f.rightShoulderY + 50) && decide (f.rightWristY > f.rightShoulderY - 50)

/-- Branch 3 (LEFT HOOK). -/
def predLeftHook (f : V2Frame) : Bool :=
  decide (f.leftSpeed > MIN_SPEED * 0.85) && decide (f.leftAngle < MAX_HOOK_ANGLE) &&
    decide (f.leftWristY < f.leftShoulderY + 30) && decide (f.leftWristY > f.leftShoulderY - 30)

/-- Branch 4 (RIGHT HOOK). -/
def predRightHook (f : V2Frame) : Bool :=
  decide (f.rightSpeed > MIN_SPEED * 0.85) && decide (f.rightAngle < MAX_HOOK_ANGLE) &&
    decide (f.rightWristY < f.rightShoulderY + 30) && decide (f.rightWristY > f.rightShoulderY - 30)

/-- Branch 5 (LEFT UPPERCUT): `leftUpwardMovement = leftShoulderY - leftWristY`. -/
def predLeftUppercut (f : V2Frame) : Bool :=
  decide (f.leftSpeed > MIN_UPPERCUT_SPEED) && decide (f.leftShoulderY - f.leftWristY > 80) &&
    decide (f.leftAngle < 100) && decide (f.leftWristY < f.leftShoulderY)

/-- Branch 6 (RIGHT UPPERCUT). -/
def predRightUppercut (f : V2Frame) : Bool :=
  decide (f.rightSpeed > MIN_UPPERCUT_SPEED) && decide (f.rightShoulderY - f.rightWristY > 80) &&
    decide (f.rightAngle < 100) && decide (f.rightWristY < f.rightShoulderY)

/-- Branch 7 (LEFT BODY SHOT). -/
def predLeftBody (f : V2Frame) : Bool :=
  decide (f.leftSpeed > MIN_SPEED * 0.8) && decide (f.leftExtension > MIN_EXTENSION * 0.8) &&
    decide (f.leftWristY > f.leftHipY - 100) && decide (f.leftWristY < f.leftHipY + 50) &&
    decide (f.leftAngle > 120)

/-- Branch 8 (RIGHT BODY SHOT). -/
def predRightBody (f : V2Frame) : Bool :=
  decide (f.rightSpeed > MIN_SPEED * 0.8) && decide (f.rightExtension > MIN_EXTENSION * 0.8) &&
    decide (f.rightWristY > f.rightHipY - 100) && decide (f.rightWristY < f.rightHipY + 50) &&
    decide (f.rightAngle > 120)

end V2Frame

/-- `detectPunch` of the V2 `punch.js` (README): eight branches in source order,
each gated by the class-keyed `canPunchV2` as the last conjunct of its `if`. -/
def detectPunchV2 (f : V2Frame) (c : Cooldown) (now : ℚ) : Option String × Cooldown :=
  detectStep canPunchV2 (f.predJab) "Jab" c now fun c1 =>
  detectStep canPunchV2 (f.predCross) "Cross" c1 now fun c2 =>
  detectStep canPunchV2 (f.predLeftHook) "Left Hook" c2 now fun c3 =>
  detectStep canPunchV2 (f.predRightHook) "Right Hook" c3 now fun c4 =>
  detectStep canPunchV2 (f.predLeftUppercut) "Left Uppercut" c4 now fun c5 =>
  detectStep canPunchV2 (f.predRightUppercut) "Right Uppercut" c5 now fun c6 =>
  detectStep canPunchV2 (f.predLeftBody) "Left Body" c6 now fun c7 =>
  detectStep canPunchV2 (f.predRightBody) "Right Body" c7 now fun c8 =>
  (none, c8)

/-- The V2 classifier's classes in their evaluation order, paired with the
frame's threshold predicates. -/
def v2Priority (f : V2Frame) : List (String × Bool) :=
  [("Jab", f.predJab), ("Cross", f.predCross),
   ("Left Hook", f.predLeftHook), ("Right Hook", f.predRightHook),
   ("Left Uppercut", f.predLeftUppercut), ("Right Uppercut", f.predRightUppercut),
   ("Left Body", f.predLeftBody), ("Right Body", f.predRightBody)]

/-- The V2 literal chain is the generic chain on its priority list. -/
theorem detectPunchV2_eq_chain (f : V2Frame) (c : Cooldown) (now : ℚ) :
    detectPunchV2 f c now = detectChain canPunchV2 (v2Priority f) c now := rfl

/-- **C1.** Per frame, each `detectPunch` variant returns at most one punch
class (its result is a single `Option`), and that result is exactly the FIRST
class of the fixed priority order — Jab, Cross, Left/Right Hook, Left/Right
Uppercut (arcade), continuing with Left/Right Body (V2) — whose threshold
predicates hold on the frame and whose cooldown gate is open; no later class of
the order is considered on that frame (`List.find?` stops at the first hit, and
a refused gate leaves the cooldown table untouched for the classes after it). -/
theorem claim1_detect_first_match :
    (∀ (f : ArcadeFrame) (c : Cooldown) (now : ℚ),
      (detectPunch f c now).1 =
        ((arcadePriority f).find? fun p => p.2 && (canPunch c p.1 now).1).map Prod.fst) ∧
    (∀ (f : V2Frame) (c : Cooldown) (now : ℚ),
      (detectPunchV2 f c now).1 =
        ((v2Priority f).find? fun p => p.2 && (canPunchV2 c p.1 now).1).map Prod.fst) := by
  constructor
  · intro f c now
    rw [detectPunch_eq_chain]
    exact detectChain_fst canPunch canPunch_frozen (arcadePriority f) c now
  · intro f c now
    rw [detectPunchV2_eq_chain]
    exact detectChain_fst canPunchV2 canPunchV2_frozen (v2Priority f) c now

/-! ## C2 — the two cooldown gates -/

/-- The decision of the arcade gate, extracted. -/
theorem canPunch_fst (c : Cooldown) (pt : String) (now : ℚ) :
    (canPunch c pt now).1 =
      (!((isLeftHand pt && wasLeftOf c.lastPunchType) ||
         (!isLeftHand pt && !wasLeftOf c.lastPunchType && c.lastPunchType.isSome)) ||
       decide (now - c.lastPunchTime > c.cooldownMs)) := by
  unfold canPunch
  dsimp only
  split <;> simp_all [Option.isSome_iff_ne_none]

/-- The decision of the strict gate, extracted. -/
theorem canPunchV2_fst (c : Cooldown) (pt : String) (now : ℚ) :
    (canPunchV2 c pt now).1 =
      (decide (now - c.lastPunchTime > c.cooldownMs) || (c.lastPunchType != some pt)) := by
  unfold canPunchV2
  split <;> simp_all

/-- When the arcade gate fires, the table records the new class and time. -/
theorem canPunch_fire (c : Cooldown) (pt : String) (now : ℚ)
    (h : (canPunch c pt now).1 = true) :
    (canPunch c pt now).2 = { c with lastPunchTime := now, lastPunchType := some pt } := by
  revert h
  unfold canPunch
  dsimp only
  split <;> simp_all

/-- When the strict gate fires, the table records the new class and time. -/
theorem canPunchV2_fire (c : Cooldown) (pt : String) (now : ℚ)
    (h : (canPunchV2 c pt now).1 = true) :
    (canPunchV2 c pt now).2 = { c with lastPunchTime := now, lastPunchType := some pt } := by
  revert h
  unfold canPunchV2
  split <;> simp_all

/-- A frame of the arcade classifier that qualifies (only) for a Left Hook:
shoulders at (0,0)/(1,0), left wrist at (0.4, -0.1), left speed 50, left
elbow angle 130°, right side still. -/
def hookOnlyFrame : ArcadeFrame :=
  { leftShoulder := ⟨0, 0⟩, rightShoulder := ⟨1, 0⟩,
    leftWrist := ⟨0.4, -0.1⟩, rightWrist := ⟨0, 0⟩,
    width := 1, leftSpeed := 50, rightSpeed := 0, leftAngle := 130, rightAngle := 0 }

/-- **C2, counterexample.** In the arcade variant a qualifying frame of a
DIFFERENT class does NOT always fire within the cooldown window: with the table
holding `lastPunchType = 'Jab'` fired at t=0 and window 250 ms, a frame at
t=100 qualifying for `Left Hook` (a different class, but the same hand) is
rejected by the gate and the classifier returns `null` — contradicting
"a qualifying frame of a different class immediately after fires even within W". -/
theorem claim2_arcade_gate_counterexample :
    ArcadeFrame.predLeftHook hookOnlyFrame = true ∧
    "Left Hook" ≠ "Jab" ∧
    (100 : ℚ) - 0 ≤ 250 ∧
    (canPunch ⟨250, 0, some "Jab"⟩ "Left Hook" 100).1 = false ∧
    (detectPunch hookOnlyFrame ⟨250, 0, some "Jab"⟩ 100).1 = none := by
  refine ⟨?_, by decide, by norm_num, ?_, ?_⟩
  · norm_num [ArcadeFrame.predLeftHook, hookOnlyFrame, ArcadeFrame.leftExtRatio,
      ArcadeFrame.leftExtensionDist, ArcadeFrame.shoulderWidth, ArcadeFrame.MIN_SPEED, abs_of_nonneg]
  · rw [canPunch_fst]
    norm_num [show isLeftHand "Left Hook" = true by decide,
      show wasLeftOf (some "Jab") = true by decide]
  · have hgate : (canPunch ⟨250, 0, some "Jab"⟩ "Left Hook" 100).1 = false := by
      rw [canPunch_fst]
      norm_num [show isLeftHand "Left Hook" = true by decide,
        show wasLeftOf (some "Jab") = true by decide]
    have hJab : ArcadeFrame.predJab hookOnlyFrame = false := by
      norm_num [ArcadeFrame.predJab, hookOnlyFrame, ArcadeFrame.leftExtRatio,
        ArcadeFrame.leftExtensionDist, ArcadeFrame.shoulderWidth, ArcadeFrame.MIN_SPEED,
        ArcadeFrame.MIN_EXT_RATIO, abs_of_nonneg]
    have hCross : ArcadeFrame.predCross hookOnlyFrame = false := by
      norm_num [ArcadeFrame.predCross, hookOnlyFrame, ArcadeFrame.rightExtRatio,
        ArcadeFrame.rightExtensionDist, ArcadeFrame.shoulderWidth, ArcadeFrame.MIN_SPEED, abs_of_nonneg]
    have hLH : ArcadeFrame.predLeftHook hookOnlyFrame = true := by
      norm_num [ArcadeFrame.predLeftHook, hookOnlyFrame, ArcadeFrame.leftExtRatio,
        ArcadeFrame.leftExtensionDist, ArcadeFrame.shoulderWidth, ArcadeFrame.MIN_SPEED, abs_of_nonneg]
    have hRH : ArcadeFrame.predRightHook hookOnlyFrame = false := by
      norm_num [ArcadeFrame.predRightHook, hookOnlyFrame, ArcadeFrame.rightExtRatio,
        ArcadeFrame.rightExtensionDist, ArcadeFrame.shoulderWidth, ArcadeFrame.MIN_SPEED, abs_of_nonneg]
    have hLU : ArcadeFrame.predLeftUppercut hookOnlyFrame = false := by
      norm_num [ArcadeFrame.predLeftUppercut, hookOnlyFrame, ArcadeFrame.MIN_SPEED]
    have hRU : ArcadeFrame.predRightUppercut hookOnlyFrame = false := by
      norm_num [ArcadeFrame.predRightUppercut, hookOnlyFrame, ArcadeFrame.MIN_SPEED]
    have hfro := canPunch_frozen ⟨250, 0, some "Jab"⟩ "Left Hook" 100 hgate
    simp [detectPunch, detectStep, hJab, hCross, hLH, hRH, hLU, hRU, hgate, hfro]

/-- **C2, amended.** The cooldown gates, precisely: (1) the strict (README V2)
gate admits a class iff its window elapsed or the class differs from the last
fired one; (2) the arcade gate (part_000) is keyed by HAND — with a previous
fire recorded, it admits a punch iff it is thrown with the other hand or the
window elapsed; (3) the arcade gate always admits when nothing fired yet;
(4)/(5) in both variants, two qualifying frames of the SAME class within the
window fire only once; (6) in the strict variant a different class always
fires, even within the window. -/
theorem claim2_cooldown_gate_amended :
    (∀ (c : Cooldown) (pt : String) (now : ℚ),
      (canPunchV2 c pt now).1 = true ↔
        (now - c.lastPunchTime > c.cooldownMs ∨ c.lastPunchType ≠ some pt)) ∧
    (∀ (c : Cooldown) (pt q : String) (now : ℚ), c.lastPunchType = some q →
      ((canPunch c pt now).1 = true ↔
        (isLeftHand pt ≠ isLeftHand q ∨ now - c.lastPunchTime > c.cooldownMs))) ∧
    (∀ (c : Cooldown) (pt : String) (now : ℚ), c.lastPunchType = none →
      (canPunch c pt now).1 = true) ∧
    (∀ (c : Cooldown) (pt : String) (now now2 : ℚ),
      (canPunchV2 c pt now).1 = true → now2 - now ≤ c.cooldownMs →
      (canPunchV2 (canPunchV2 c pt now).2 pt now2).1 = false) ∧
    (∀ (c : Cooldown) (pt : String) (now now2 : ℚ),
      (canPunch c pt now).1 = true → now2 - now ≤ c.cooldownMs →
      (canPunch (canPunch c pt now).2 pt now2).1 = false) ∧
    (∀ (c : Cooldown) (pt pt2 : String) (now now2 : ℚ), pt2 ≠ pt →
      (canPunchV2 c pt now).1 = true →
      (canPunchV2 (canPunchV2 c pt now).2 pt2 now2).1 = true) := by
  refine ⟨?_, ?_, ?_, ?_, ?_, ?_⟩
  · intro c pt now
    rw [canPunchV2_fst]
    simp
  · intro c pt q now hq
    rw [canPunch_fst, hq]
    cases hpt : isLeftHand pt <;> cases hq2 : isLeftHand q <;>
      simp [wasLeftOf, hpt, hq2]
  · intro c pt now hnone
    rw [canPunch_fst, hnone]
    simp [wasLeftOf]
  · intro c pt now now2 hfire hwin
    rw [canPunchV2_fire c pt now hfire, canPunchV2_fst]
    simp only [Bool.or_eq_false_iff, decide_eq_false_iff_not, not_lt, bne_eq_false_iff_eq]
    exact ⟨hwin, trivial⟩
  · intro c pt now now2 hfire hwin
    rw [canPunch_fire c pt now hfire, canPunch_fst]
    cases hpt : isLeftHand pt <;>
      simp [wasLeftOf, hpt, hwin, not_lt]
  · intro c pt pt2 now now2 hne hfire
    rw [canPunchV2_fire c pt now hfire, canPunchV2_fst]
    simp [Ne.symm hne]

/-- Witness for C2 (amended): with 'Jab' on the table at t=0 and window 250 ms,
a 'Cross' (the other hand) at t=100 is admitted by the arcade gate. -/
theorem claim2_cooldown_gate_amended_witness :
    (canPunch ⟨250, 0, some "Jab"⟩ "Cross" 100).1 = true :=
  (claim2_cooldown_gate_amended.2.1 ⟨250, 0, some "Jab"⟩ "Cross" "Jab" 100 rfl).mpr
    (Or.inl (by decide))

/-! ## Scoring engine — `src/src/js/scoring.js` -/

/-- One entry of `SCORING_CONFIG`. -/
structure ScoringConfig where
  idealAngle : ℚ
  idealSpeed : ℚ
  maxSpeed : ℚ
  angleTolerance : ℚ
  speedWeight : ℚ
  formWeight : ℚ
deriving DecidableEq

/-- `SCORING_CONFIG.jab`. -/
def jabConfig : ScoringConfig :=
  { idealAngle := 165, idealSpeed := 150, maxSpeed := 2500,
    angleTolerance := 25, speedWeight := 0.6, formWeight := 0.4 }

/-- `SCORING_CONFIG.cross`. -/
def crossConfig : ScoringConfig :=
  { idealAngle := 165, idealSpeed := 180, maxSpeed := 3000,
    angleTolerance := 25, speedWeight := 0.65, formWeight := 0.35 }

/-- `SCORING_CONFIG.hook`. -/
def hookConfig : ScoringConfig :=
  { idealAngle := 90, idealSpeed := 140, maxSpeed := 2200,
    angleTolerance := 30, speedWeight := 0.5, formWeight := 0.5 }

/-- `SCORING_CONFIG.left` (identical numbers to `hook`). -/
def leftConfig : ScoringConfig :=
  { idealAngle := 90, idealSpeed := 140, maxSpeed := 2200,
    angleTolerance := 30, speedWeight := 0.5, formWeight := 0.5 }

/-- `SCORING_CONFIG.right` (identical numbers to `hook`). -/
def rightConfig : ScoringConfig :=
  { idealAngle := 90, idealSpeed := 140, maxSpeed := 2200,
    angleTolerance := 30, speedWeight := 0.5, formWeight := 0.5 }

/-- `SCORING_CONFIG[punchType]`: the object has exactly the five keys above. -/
def scoringConfigLookup (punchType : String) : Option ScoringConfig :=
  if punchType = "jab" then some jabConfig
  else if punchType = "cross" then some crossConfig
  else if punchType = "hook" then some hookConfig
  else if punchType = "left" then some leftConfig
  else if punchType = "right" then some rightConfig
  else none

/-- `SCORING_CONFIG[punchType] || SCORING_CONFIG.jab` — missing keys fall back
to the jab configuration. -/
def configFor (punchType : String) : ScoringConfig :=
  (scoringConfigLookup punchType).getD jabConfig

/-- The speed sub-score of `calculateScore` (before `Math.round`):
best at the ideal speed, with a proportional ramp below half the ideal, the
`100 - |ratio-1|*30` band up to 1.5× the ideal, and a floored over-speed
penalty beyond, finally clamped to [0, 100]. -/
def speedScoreQ (speed : ℚ) (config : ScoringConfig) : ℚ :=
  let idealSpeedRatio := speed / config.idealSpeed
  let raw :=
    if idealSpeedRatio < 0.5 then idealSpeedRatio * 2 * 100
    else if idealSpeedRatio ≤ 1.5 then 100 - |idealSpeedRatio - 1| * 30
    else max (70 - (idealSpeedRatio - 1.5) * 20) 40
  max 0 (min 100 raw)

/-- The form sub-score of `calculateScore` (before `Math.round`): piecewise
linear in the absolute angle deviation, gentler inside the tolerance band. -/
def formScoreQ (angle : ℚ) (config : ScoringConfig) : ℚ :=
  let angleDeviation := |angle - config.idealAngle|
  let raw :=
    if angleDeviation ≤ config.angleTolerance then
      100 - angleDeviation / config.angleTolerance * 20
    else max (80 - (angleDeviation - config.angleTolerance) * 1.5) 0
  max 0 (min 100 raw)

/-- `getGrade` of `scoring.js`. -/
def getGrade (score : ℚ) : String :=
  if score ≥ 95 then "S"
  else if score ≥ 90 then "A+"
  else if score ≥ 85 then "A"
  else if score ≥ 80 then "A-"
  else if score ≥ 75 then "B+"
  else if score ≥ 70 then "B"
  else if score ≥ 65 then "B-"
  else if score ≥ 60 then "C+"
  else if score ≥ 55 then "C"
  else if score ≥ 50 then "C-"
  else if score ≥ 45 then "D"
  else "F"

/-- Result record of `calculateScore` (the random feedback text is
presentational and not modelled; `details` keeps the ideals actually used). -/
structure ScoreResult where
  speedScore : ℤ
  formScore : ℤ
  totalScore : ℤ
  grade : String
  isPerfect : Bool
  isGreat : Bool
  isGood : Bool
  detailsIdealSpeed : ℚ
  detailsIdealAngle : ℚ
deriving DecidableEq

/-- `calculateScore` of `scoring.js`: guards `!punchType || punchType === 'none'`,
resolves the per-type configuration (with the jab fallback), computes the two
sub-scores, the weighted total, the grade and the tier flags.  `Math.round`
is ⌊x + 1/2⌋ (round half towards +∞), as in JavaScript. -/
def calculateScore (punchType : String) (speed angle : ℚ) : ScoreResult :=
  if punchType = "" ∨ punchType = "none" then
    { speedScore := 0, formScore := 0, totalScore := 0, grade := "F",
      isPerfect := false, isGreat := false, isGood := false,
      detailsIdealSpeed := 0, detailsIdealAngle := 0 }
  else
    let config := configFor punchType
    let speedScore := speedScoreQ speed config
    let formScore := formScoreQ angle config
    let totalScore := speedScore * config.speedWeight + formScore * config.formWeight
    { speedScore := round speedScore, formScore := round formScore,
      totalScore := round totalScore, grade := getGrade totalScore,
      isPerfect := decide (totalScore ≥ 95), isGreat := decide (totalScore ≥ 85),
      isGood := decide (totalScore ≥ 70),
      detailsIdealSpeed := config.idealSpeed, detailsIdealAngle := config.idealAngle }

/-- `calculateComboMultiplier` of `scoring.js` (the capped step function). -/
def calculateComboMultiplier (comboCount : ℕ) : ℚ :=
  if comboCount < 3 then 1.0
  else if comboCount < 5 then 1.2
  else if comboCount < 10 then 1.5
  else if comboCount < 15 then 1.8
  else if comboCount < 25 then 2.0
  else 2.5

/-! ## C3 — the shape of the speed sub-score -/

/-- Clamping to [0,100] is the identity on values already inside the band. -/
theorem clamp100_eq {x : ℚ} (h0 : 0 ≤ x) (h1 : x ≤ 100) : max 0 (min 100 x) = x := by
  rw [min_eq_right h1, max_eq_right h0]

/-- **C3, counterexample.** For the jab configuration (ideal speed 150) the
speed sub-score does NOT strictly increase from 0 up to the ideal speed: it
jumps DOWN at half the ideal.  Speed 70 (< 75 ≤ ideal) scores 280/3 ≈ 93.3
while speed 75 scores 85.  Likewise it does not strictly decrease everywhere
beyond 1.5×ideal: speeds 450 and 600 (both > 225) score the same 40. -/
theorem claim3_speed_score_counterexample :
    speedScoreQ 70 jabConfig = 280/3 ∧
    speedScoreQ 75 jabConfig = 85 ∧
    (70 : ℚ) < 75 ∧ (75 : ℚ) ≤ jabConfig.idealSpeed ∧ (85 : ℚ) < 280/3 ∧
    speedScoreQ 450 jabConfig = 40 ∧ speedScoreQ 600 jabConfig = 40 ∧
    1.5 * jabConfig.idealSpeed < 450 ∧ (450 : ℚ) < 600 := by
  refine ⟨?_, ?_, by norm_num, by norm_num [jabConfig], by norm_num, ?_, ?_,
    by norm_num [jabConfig], by norm_num⟩ <;>
    norm_num [speedScoreQ, jabConfig, abs_of_nonpos, abs_of_nonneg]

/-- **C3, amended.** For every configuration with positive ideal speed `i` and
any fixed angle, the speed sub-score is piecewise monotone: strictly increasing
on [0, i/2), strictly increasing again on [i/2, i], strictly decreasing on
(1.5·i, 3·i], and constant 40 from 3·i on — but it is NOT increasing across
i/2: it drops from values approaching 100 to 85 there (e.g. 90 at 0.45·i
against 85 at 0.5·i). -/
theorem claim3_speed_score_amended (cfg : ScoringConfig) (hi : 0 < cfg.idealSpeed) :
    (∀ s1 s2 : ℚ, 0 ≤ s1 → s1 < s2 → s2 < cfg.idealSpeed / 2 →
      speedScoreQ s1 cfg < speedScoreQ s2 cfg) ∧
    (∀ s1 s2 : ℚ, cfg.idealSpeed / 2 ≤ s1 → s1 < s2 → s2 ≤ cfg.idealSpeed →
      speedScoreQ s1 cfg < speedScoreQ s2 cfg) ∧
    (∀ s1 s2 : ℚ, 1.5 * cfg.idealSpeed < s1 → s1 < s2 → s2 ≤ 3 * cfg.idealSpeed →
      speedScoreQ s2 cfg < speedScoreQ s1 cfg) ∧
    (∀ s : ℚ, 3 * cfg.idealSpeed ≤ s → speedScoreQ s cfg = 40) ∧
    (speedScoreQ (0.45 * cfg.idealSpeed) cfg = 90 ∧
     speedScoreQ (cfg.idealSpeed / 2) cfg = 85) := by
  have hne : cfg.idealSpeed ≠ 0 := ne_of_gt hi
  refine ⟨?_, ?_, ?_, ?_, ?_, ?_⟩
  · intro s1 s2 h0 h12 h2i
    have hr1 : s1 / cfg.idealSpeed < 0.5 := by rw [div_lt_iff hi]; linarith
    have hr2 : s2 / cfg.idealSpeed < 0.5 := by rw [div_lt_iff hi]; linarith
    have hlt : s1 / cfg.idealSpeed < s2 / cfg.idealSpeed := by gcongr
    have h0r : (0:ℚ) ≤ s1 / cfg.idealSpeed := div_nonneg h0 (le_of_lt hi)
    simp only [speedScoreQ]
    rw [if_pos hr1, if_pos hr2, clamp100_eq (by nlinarith) (by nlinarith),
      clamp100_eq (by nlinarith) (by nlinarith)]
    nlinarith
  · intro s1 s2 h1 h12 h2
    have hr1l : (0.5 : ℚ) ≤ s1 / cfg.idealSpeed := by rw [le_div_iff hi]; linarith
    have hr2l : (0.5 : ℚ) ≤ s2 / cfg.idealSpeed := by rw [le_div_iff hi]; linarith
    have hr1u : s1 / cfg.idealSpeed ≤ 1.5 := by rw [div_le_iff hi]; linarith
    have hr2u : s2 / cfg.idealSpeed ≤ 1.5 := by rw [div_le_iff hi]; linarith
    have hr1o : s1 / cfg.idealSpeed ≤ 1 := by rw [div_le_iff hi]; linarith
    have hr2o : s2 / cfg.idealSpeed ≤ 1 := by rw [div_le_iff hi]; linarith
    have hlt : s1 / cfg.idealSpeed < s2 / cfg.idealSpeed := by gcongr
    simp only [speedScoreQ]
    rw [if_neg (not_lt.mpr hr1l), if_neg (not_lt.mpr hr2l), if_pos hr1u, if_pos hr2u,
      abs_of_nonpos (by linarith), abs_of_nonpos (by linarith),
      clamp100_eq (by nlinarith) (by nlinarith), clamp100_eq (by nlinarith) (by nlinarith)]
    nlinarith
  · intro s1 s2 h1 h12 h2
    have hr1 : (1.5 : ℚ) < s1 / cfg.idealSpeed := by rw [lt_div_iff hi]; linarith
    have hr2 : (1.5 : ℚ) < s2 / cfg.idealSpeed := by rw [lt_div_iff hi]; linarith
    have hr1u : s1 / cfg.idealSpeed ≤ 3 := by rw [div_le_iff hi]; linarith
    have hr2u : s2 / cfg.idealSpeed ≤ 3 := by rw [div_le_iff hi]; linarith
    have hlt : s1 / cfg.idealSpeed < s2 / cfg.idealSpeed := by gcongr
    have hn1 : ¬(s1 / cfg.idealSpeed < 0.5) := by push_neg; linarith
    have hn2 : ¬(s2 / cfg.idealSpeed < 0.5) := by push_neg; linarith
    simp only [speedScoreQ]
    have hm1 : max (70 - (s1 / cfg.idealSpeed - 1.5) * 20) 40 =
        70 - (s1 / cfg.idealSpeed - 1.5) * 20 := max_eq_left (by linarith)
    have hm2 : max (70 - (s2 / cfg.idealSpeed - 1.5) * 20) 40 =
        70 - (s2 / cfg.idealSpeed - 1.5) * 20 := max_eq_left (by linarith)
    rw [if_neg hn1, if_neg hn2, if_neg (not_le.mpr hr1), if_neg (not_le.mpr hr2),
      hm1, hm2, clamp100_eq (by linarith) (by linarith), clamp100_eq (by linarith) (by linarith)]
    linarith
  · intro s hs
    have hr : (3 : ℚ) ≤ s / cfg.idealSpeed := by rw [le_div_iff hi]; linarith
    have hn1 : ¬(s / cfg.idealSpeed < 0.5) := by push_neg; linarith
    have hn2 : ¬(s / cfg.idealSpeed ≤ 1.5) := by push_neg; linarith
    have hm : max (70 - (s / cfg.idealSpeed - 1.5) * 20) 40 = 40 :=
      max_eq_right (by linarith)
    simp only [speedScoreQ]
    rw [if_neg hn1, if_neg hn2, hm]
    norm_num
  · have hr : (0.45 : ℚ) * cfg.idealSpeed / cfg.idealSpeed = 0.45 := by
      rw [mul_div_assoc, div_self hne, mul_one]
    simp only [speedScoreQ]
    rw [hr, if_pos (by norm_num)]
    norm_num
  · have hr : cfg.idealSpeed / 2 / cfg.idealSpeed = 0.5 := by
      field_simp
      ring
    simp only [speedScoreQ]
    rw [hr, if_neg (by norm_num), if_pos (by norm_num),
      abs_of_nonpos (by norm_num)]
    norm_num

/-- Witness for C3 (amended): instantiated at the jab configuration — the
over-speed tail is constant: a 600-speed jab still scores 40. -/
theorem claim3_speed_score_amended_witness :
    speedScoreQ 600 jabConfig = 40 :=
  (claim3_speed_score_amended jabConfig (by norm_num [jabConfig])).2.2.2.1 600
    (by norm_num [jabConfig])

/-! ## C8 — which configuration scores which category -/

/-- **C8, counterexample.** `SCORING_CONFIG` has no `uppercut` or `body` entry,
so `SCORING_CONFIG[punchType] || SCORING_CONFIG.jab` scores uppercuts and body
shots against the JAB ideals (ideal angle 165°, ideal speed 150) — an uppercut
is not scored against uppercut ideals; its whole score equals the jab score. -/
theorem claim8_config_counterexample :
    scoringConfigLookup "uppercut" = none ∧
    scoringConfigLookup "body" = none ∧
    configFor "uppercut" = jabConfig ∧
    (calculateScore "uppercut" 130 70).detailsIdealAngle = 165 ∧
    (calculateScore "uppercut" 130 70).detailsIdealSpeed = 150 ∧
    calculateScore "uppercut" 130 70 = calculateScore "jab" 130 70 := by
  refine ⟨by simp [scoringConfigLookup], by simp [scoringConfigLookup],
    by simp [configFor, scoringConfigLookup], ?_, ?_, ?_⟩ <;>
    simp [calculateScore, configFor, scoringConfigLookup, jabConfig]

/-- **C8, amended.** The five configured keys (`jab`, `cross`, `hook`, `left`,
`right`) each resolve to their own configuration, and `calculateScore` uses the
resolved configuration's ideal speed and angle; but `uppercut` and `body` have
no entry and fall back to the jab configuration. -/
theorem claim8_config_amended :
    configFor "jab" = jabConfig ∧ configFor "cross" = crossConfig ∧
    configFor "hook" = hookConfig ∧ configFor "left" = leftConfig ∧
    configFor "right" = rightConfig ∧
    configFor "uppercut" = jabConfig ∧ configFor "body" = jabConfig ∧
    (∀ (pt : String) (speed angle : ℚ), pt ≠ "" → pt ≠ "none" →
      (calculateScore pt speed angle).detailsIdealSpeed = (configFor pt).idealSpeed ∧
      (calculateScore pt speed angle).detailsIdealAngle = (configFor pt).idealAngle) := by
  refine ⟨by simp [configFor, scoringConfigLookup], by simp [configFor, scoringConfigLookup],
    by simp [configFor, scoringConfigLookup], by simp [configFor, scoringConfigLookup],
    by simp [configFor, scoringConfigLookup], by simp [configFor, scoringConfigLookup],
    by simp [configFor, scoringConfigLookup], ?_⟩
  intro pt speed angle h1 h2
  rw [calculateScore, if_neg (by push_neg; exact ⟨h1, h2⟩)]
  exact ⟨rfl, rfl⟩

/-- Witness for C8 (amended): the scoring of an `uppercut` reads its ideal
angle from the resolved (fallback) configuration. -/
theorem claim8_config_amended_witness :
    (calculateScore "uppercut" 130 70).detailsIdealAngle = (configFor "uppercut").idealAngle :=
  (claim8_config_amended.2.2.2.2.2.2.2 "uppercut" 130 70 (by decide) (by decide)).2

/-! ## Drill scheduler — `FocusMittDrill` of `src/src/js/game.js` -/

/-- The drill-relevant state of a `FocusMittDrill` object (UI element handles,
sounds and DOM counters are presentation and not modelled; `drillTimeout` is
modelled as the flag `timeoutArmed`). -/
structure DrillState where
  isRunning : Bool
  activePunch : Option String
  timeoutArmed : Bool
  comboCount : ℕ
  comboMultiplier : ℚ
  lastHitTime : ℚ
  level : ℕ
  hitsInLevel : ℕ
  totalHits : ℕ
  totalMisses : ℕ
  perfectHits : ℕ
  availablePunchTypes : List String
deriving DecidableEq

/-- `hitsPerLevel = 10`. -/
def hitsPerLevel : ℕ := 10

/-- `comboResetDelay = 3000` (ms). -/
def comboResetDelay : ℚ := 3000

/-- The constructor state of `FocusMittDrill`. -/
def initDrill : DrillState :=
  { isRunning := false, activePunch := none, timeoutArmed := false,
    comboCount := 0, comboMultiplier := 1, lastHitTime := 0,
    level := 1, hitsInLevel := 0, totalHits := 0, totalMisses := 0, perfectHits := 0,
    availablePunchTypes := ["Jab", "Cross"] }

/-- `resetStats()`. -/
def resetStats (s : DrillState) : DrillState :=
  { s with comboCount := 0, comboMultiplier := 1, level := 1, hitsInLevel := 0,
           totalHits := 0, totalMisses := 0, perfectHits := 0,
           availablePunchTypes := ["Jab", "Cross"] }

/-- First unlock check of `updateAvailablePunches()`: hooks at level ≥ 3,
guarded by an `includes('Left Hook')` test, pushing both sides. -/
def updateHooks (level : ℕ) (a : List String) : List String :=
  if 3 ≤ level ∧ "Left Hook" ∉ a then a ++ ["Left Hook", "Right Hook"] else a

/-- Second unlock check: uppercuts at level ≥ 5. -/
def updateUppercuts (level : ℕ) (a : List String) : List String :=
  if 5 ≤ level ∧ "Left Uppercut" ∉ a then a ++ ["Left Uppercut", "Right Uppercut"] else a

/-- Third unlock check: body shots at level ≥ 7. -/
def updateBody (level : ℕ) (a : List String) : List String :=
  if 7 ≤ level ∧ "Left Body" ∉ a then a ++ ["Left Body", "Right Body"] else a

/-- The three sequential unlock checks of `updateAvailablePunches()` (each
sees the pushes of the previous one, as the source mutates one array). -/
def updateList (level : ℕ) (a : List String) : List String :=
  updateBody level (updateUppercuts level (updateHooks level a))

/-- `updateAvailablePunches()` as a state function. -/
def updateAvailablePunches (s : DrillState) : DrillState :=
  { s with availablePunchTypes := updateList s.level s.availablePunchTypes }

/-- `start()`: set running, reset stats, re-check unlocks (the first challenge
is then scheduled; target choice is random and modelled by the event layer). -/
def startDrill (s : DrillState) : DrillState :=
  updateAvailablePunches (resetStats { s with isRunning := true })

/-- `resetCombo()`. -/
def resetCombo (s : DrillState) : DrillState :=
  { s with comboCount := 0, comboMultiplier := 1 }

/-- `levelUp()`: bump the level, clear the per-level hit count, re-check unlocks. -/
def levelUp (s : DrillState) : DrillState :=
  updateAvailablePunches { s with level := s.level + 1, hitsInLevel := 0 }

/-- The `punchData` argument of `handleHit` (`{}` by default): optional
`speedScore` / `formScore` fields. -/
structure PunchData where
  speedScore : Option ℚ
  formScore : Option ℚ
deriving DecidableEq

/-- JavaScript `x || d` on an optional numeric field: an absent field and the
(falsy) value 0 both yield the default. -/
def jsOrDefault (v : Option ℚ) (d : ℚ) : ℚ :=
  match v with
  | none => d
  | some x => if x = 0 then d else x

/-- `handleHit(punchData)` of `FocusMittDrill`, returning the new state and the
points passed to `onScore`: cancel the timeout, bump the combo and recompute
`comboMultiplier = 1 + Math.floor(comboCount / 3) * 0.5`, add the quality-tier
bonus (+50 above average quality 90, else +25 above 75) and the per-category
bonus (+10 Hook / +20 Uppercut / +15 Body), multiply by the combo multiplier
and floor; then count the hit and level up on reaching the quota. -/
def handleHit (s : DrillState) (pd : PunchData) (now : ℚ) : DrillState × ℤ :=
  let s1 : DrillState :=
    { s with timeoutArmed := false,
             comboCount := s.comboCount + 1,
             comboMultiplier := 1 + (((s.comboCount + 1) / 3 : ℕ) : ℚ) * 0.5,
             lastHitTime := now }
  let speedScore := jsOrDefault pd.speedScore 50
  let formScore := jsOrDefault pd.formScore 50
  let avgQuality := (speedScore + formScore) / 2
  let p1 : ℤ := if avgQuality > 90 then 100 + 50 else if avgQuality > 75 then 100 + 25 else 100
  let s2 := if avgQuality > 90 then { s1 with perfectHits := s1.perfectHits + 1 } else s1
  let ap := s2.activePunch.getD ""
  let p2 : ℤ := if jsIncludes ap "Hook" then p1 + 10 else p1
  let p3 : ℤ := if jsIncludes ap "Uppercut" then p2 + 20 else p2
  let p4 : ℤ := if jsIncludes ap "Body" then p3 + 15 else p3
  let points : ℤ := ⌊(p4 : ℚ) * s2.comboMultiplier⌋
  let s3 := { s2 with totalHits := s2.totalHits + 1, hitsInLevel := s2.hitsInLevel + 1 }
  let s4 := if hitsPerLevel ≤ s3.hitsInLevel then levelUp s3 else s3
  ({ s4 with activePunch := none }, points)

/-- `handleMiss()`: count the miss, break a running combo, clear the target. -/
def handleMiss (s : DrillState) : DrillState :=
  let s1 := { s with timeoutArmed := false, totalMisses := s.totalMisses + 1 }
  let s2 := if 0 < s1.comboCount then resetCombo s1 else s1
  { s2 with activePunch := none }

/-- `normalizePunchName` of `FocusMittDrill`: lowercase, drop whitespace, then
the six fixed abbreviation replacements in source order. -/
def normalizePunchName (punchName : String) : String :=
  jsReplace (jsReplace (jsReplace (jsReplace (jsReplace (jsReplace
    (stripSpaces (strToLower punchName))
    "lefthook" "lhook") "righthook" "rhook")
    "leftuppercut" "luppercut") "rightuppercut" "ruppercut")
    "leftbody" "lbody") "rightbody" "rbody"

/-- `checkPunch(detectedPunch, punchData)`: only when running with an active
target, and only a normalized name match counts as a hit (0 points otherwise). -/
def checkPunch (s : DrillState) (detectedPunch : String) (pd : PunchData) (now : ℚ) :
    DrillState × ℤ :=
  if s.isRunning = false ∨ s.activePunch = none then (s, 0)
  else
    match s.activePunch with
    | none => (s, 0)
    | some ap =>
      if normalizePunchName detectedPunch = normalizePunchName ap then handleHit s pd now
      else (s, 0)

/-- The session summary shown by `stop()` (the `toFixed(1)` string formatting
is presentation; the exact rational percentage is kept).  The `Max Combo` line
of the notification reports `this.comboCount`. -/
structure Summary where
  accuracy : ℚ
  hits : ℕ
  misses : ℕ
  maxCombo : ℕ
  level : ℕ
deriving DecidableEq

/-- `stop()`: stop running, cancel the pending timeout, hide targets, and
produce the final summary. -/
def stopDrill (s : DrillState) : DrillState × Summary :=
  ({ s with isRunning := false, timeoutArmed := false },
   { accuracy := if 0 < s.totalHits + s.totalMisses then
       ((s.totalHits : ℚ) / ((s.totalHits : ℚ) + (s.totalMisses : ℚ))) * 100 else 0,
     hits := s.totalHits, misses := s.totalMisses,
     maxCombo := s.comboCount, level := s.level })

/-! ## C4 — points awarded per hit -/

/-- The score-tier bonus of `handleHit`, as described: +50 above average
quality 90 (perfect), +25 above 75, else nothing; absent or zero sub-scores
default to 50. -/
def tierBonus (pd : PunchData) : ℤ :=
  let avgQuality := (jsOrDefault pd.speedScore 50 + jsOrDefault pd.formScore 50) / 2
  if avgQuality > 90 then 50 else if avgQuality > 75 then 25 else 0

/-- The category bonus of `handleHit`: hooks +10, uppercuts +20, body shots
+15, straight punches nothing. -/
def categoryBonus (activePunch : String) : ℤ :=
  (if jsIncludes activePunch "Hook" then 10 else 0) +
  (if jsIncludes activePunch "Uppercut" then 20 else 0) +
  (if jsIncludes activePunch "Body" then 15 else 0)

/-- **C4.** Every hit awards `⌊(100 + tier bonus + category bonus) × combo
multiplier⌋` points, where the multiplier is recomputed from the incremented
combo count; hooks, uppercuts and body shots carry a strictly positive category
bonus while straight punches carry none; and in the concrete scenario — fresh
drill at level 1, active target Jab, a matching Jab arrives in the reaction
window — the hit yields exactly 100 points, `hitsInLevel = 1`, `comboCount = 1`. -/
theorem claim4_hit_points :
    (∀ (s : DrillState) (pd : PunchData) (now : ℚ),
      (handleHit s pd now).2 =
        ⌊((100 + tierBonus pd + categoryBonus (s.activePunch.getD "") : ℤ) : ℚ) *
          (1 + (((s.comboCount + 1) / 3 : ℕ) : ℚ) * 0.5)⌋) ∧
    (categoryBonus "Jab" = 0 ∧ categoryBonus "Cross" = 0 ∧
     categoryBonus "Left Hook" = 10 ∧ categoryBonus "Right Hook" = 10 ∧
     categoryBonus "Left Uppercut" = 20 ∧ categoryBonus "Right Uppercut" = 20 ∧
     categoryBonus "Left Body" = 15 ∧ categoryBonus "Right Body" = 15) ∧
    ((checkPunch { startDrill initDrill with activePunch := some "Jab", timeoutArmed := true }
        "Jab" ⟨none, none⟩ 1000).2 = 100 ∧
     (checkPunch { startDrill initDrill with activePunch := some "Jab", timeoutArmed := true }
        "Jab" ⟨none, none⟩ 1000).1.hitsInLevel = 1 ∧
     (checkPunch { startDrill initDrill with activePunch := some "Jab", timeoutArmed := true }
        "Jab" ⟨none, none⟩ 1000).1.comboCount = 1 ∧
     (checkPunch { startDrill initDrill with activePunch := some "Jab", timeoutArmed := true }
        "Jab" ⟨none, none⟩ 1000).1.totalHits = 1) := by
  refine ⟨?_, by decide, ?_⟩
  · intro s pd now
    simp only [handleHit, tierBonus, categoryBonus]
    split_ifs <;> rfl
  · refine ⟨?_, ?_, ?_, ?_⟩ <;>
      norm_num [checkPunch, startDrill, initDrill, resetStats, updateAvailablePunches,
        updateList, updateHooks, updateUppercuts, updateBody, handleHit, jsOrDefault, hitsPerLevel, levelUp,
        Option.some_ne_none,
        show jsIncludes "Jab" "Hook" = false from by decide,
        show jsIncludes "Jab" "Uppercut" = false from by decide,
        show jsIncludes "Jab" "Body" = false from by decide]

/-! ## C6 — the combo multiplier applied to hit points -/

/-- A running drill 26 hits into a combo, Jab target active. -/
def combo26State : DrillState :=
  { initDrill with isRunning := true, comboCount := 26, activePunch := some "Jab" }

/-- **C6, counterexample.** The multiplier the drill APPLIES to hit points is
`1 + Math.floor(comboCount / 3) * 0.5`, recomputed in `handleHit` — it is not
the capped `calculateComboMultiplier` step function: at the 27th consecutive
hit the applied multiplier is 5.5, above the claimed 2.5 cap (which
`calculateComboMultiplier 27` would give). -/
theorem claim6_combo_multiplier_counterexample :
    ((handleHit combo26State ⟨none, none⟩ 0).1).comboCount = 27 ∧
    ((handleHit combo26State ⟨none, none⟩ 0).1).comboMultiplier = 5.5 ∧
    (2.5 : ℚ) < 5.5 ∧
    calculateComboMultiplier 27 = 2.5 := by
  refine ⟨?_, ?_, by norm_num, by norm_num [calculateComboMultiplier]⟩ <;>
    norm_num [handleHit, combo26State, initDrill, jsOrDefault, hitsPerLevel, levelUp,
      updateAvailablePunches, updateList, updateHooks, updateUppercuts, updateBody]

/-- **C6, amended.** `calculateComboMultiplier` in `scoring.js` is the claimed
capped step function (1.0 below 3, plateaus, 2.5 at ≥ 25, never above 2.5);
but the multiplier actually applied to hit points is `FocusMittDrill`'s own
`1 + ⌊comboCount/3⌋ × 0.5`: equal to 1.0 below a combo of 3, stepping up by
0.5 every 3 consecutive hits, and growing without any cap (at combo `6k` it
reaches `1 + k`). -/
theorem claim6_combo_multiplier_amended :
    (∀ n : ℕ, n < 3 → calculateComboMultiplier n = 1) ∧
    (∀ n : ℕ, 25 ≤ n → calculateComboMultiplier n = 2.5) ∧
    (∀ n : ℕ, calculateComboMultiplier n ≤ 2.5) ∧
    (∀ (s : DrillState) (pd : PunchData) (now : ℚ),
      ((handleHit s pd now).1).comboMultiplier =
        1 + (((s.comboCount + 1) / 3 : ℕ) : ℚ) * 0.5) ∧
    (∀ n : ℕ, n < 3 → 1 + ((n / 3 : ℕ) : ℚ) * 0.5 = 1) ∧
    (∀ n : ℕ, 1 + (((n + 3) / 3 : ℕ) : ℚ) * 0.5 = (1 + ((n / 3 : ℕ) : ℚ) * 0.5) + 0.5) ∧
    (∀ k : ℕ, 1 + ((6 * k / 3 : ℕ) : ℚ) * 0.5 = 1 + k) := by
  refine ⟨?_, ?_, ?_, ?_, ?_, ?_, ?_⟩
  · intro n h
    rw [calculateComboMultiplier, if_pos h]
    norm_num
  · intro n h
    rw [calculateComboMultiplier]
    rcases Nat.lt_or_ge n 3 with h3 | _
    · omega
    · rw [if_neg (by omega), if_neg (by omega), if_neg (by omega), if_neg (by omega),
        if_neg (by omega)]
  · intro n
    rw [calculateComboMultiplier]
    split_ifs <;> norm_num
  · intro s pd now
    simp only [handleHit, levelUp, updateAvailablePunches]
    split_ifs <;> simp
  · intro n h
    rw [Nat.div_eq_of_lt h]
    norm_num
  · intro n
    rw [Nat.add_div_right n (by norm_num)]
    push_cast
    ring
  · intro k
    rw [show 6 * k / 3 = 2 * k from by omega]
    push_cast
    ring

/-- Witness for C6 (amended): a 2-hit combo still gets the flat 1.0 multiplier
from `calculateComboMultiplier`. -/
theorem claim6_combo_multiplier_amended_witness :
    calculateComboMultiplier 2 = 1 :=
  claim6_combo_multiplier_amended.1 2 (by norm_num)

/-! ## C5 — progressive unlocking -/

/-- The available-punch list of a session that has reached level `L`:
the constructor list, re-checked by `updateAvailablePunches` at each level
reached (`start()` runs the check at level 1, `levelUp()` at each new level). -/
def sessionAvail : ℕ → List String
  | 0 => ["Jab", "Cross"]
  | L + 1 => updateList (L + 1) (sessionAvail L)

/-- The closed form of the unlock table: hooks from level 3, uppercuts from
level 5, body shots from level 7. -/
def canonicalUnlocks (L : ℕ) : List String :=
  ["Jab", "Cross"] ++ (if 3 ≤ L then ["Left Hook", "Right Hook"] else []) ++
    (if 5 ≤ L then ["Left Uppercut", "Right Uppercut"] else []) ++
    (if 7 ≤ L then ["Left Body", "Right Body"] else [])

/-- A single guarded push never removes a class. -/
theorem subset_updateHooks (level : ℕ) (a : List String) : a ⊆ updateHooks level a := by
  intro x hx
  unfold updateHooks
  split_ifs <;> simp_all

/-- A single guarded push never removes a class. -/
theorem subset_updateUppercuts (level : ℕ) (a : List String) : a ⊆ updateUppercuts level a := by
  intro x hx
  unfold updateUppercuts
  split_ifs <;> simp_all

/-- A single guarded push never removes a class. -/
theorem subset_updateBody (level : ℕ) (a : List String) : a ⊆ updateBody level a := by
  intro x hx
  unfold updateBody
  split_ifs <;> simp_all

/-- An unlock re-check never removes a class. -/
theorem subset_updateList (level : ℕ) (a : List String) : a ⊆ updateList level a :=
  fun _x hx => subset_updateBody _ _ (subset_updateUppercuts _ _ (subset_updateHooks _ _ hx))

/-- From level 3 on, a re-checked list holds `Left Hook`. -/
theorem mem_updateList_hook (level : ℕ) (a : List String) (h : 3 ≤ level) :
    "Left Hook" ∈ updateList level a := by
  apply subset_updateBody
  apply subset_updateUppercuts
  unfold updateHooks
  split_ifs with hc <;> simp_all

/-- From level 5 on, a re-checked list holds `Left Uppercut`. -/
theorem mem_updateList_uppercut (level : ℕ) (a : List String) (h : 5 ≤ level) :
    "Left Uppercut" ∈ updateList level a := by
  apply subset_updateBody
  unfold updateUppercuts
  split_ifs with hc <;> simp_all

/-- From level 7 on, a re-checked list holds `Left Body`. -/
theorem mem_updateList_body (level : ℕ) (a : List String) (h : 7 ≤ level) :
    "Left Body" ∈ updateList level a := by
  show "Left Body" ∈ updateBody level _
  unfold updateBody
  split_ifs with hc <;> simp_all

/-- Re-checking twice equals re-checking once. -/
theorem updateList_idem (level : ℕ) (a : List String) :
    updateList level (updateList level a) = updateList level a := by
  have h1 : ¬(3 ≤ level ∧ "Left Hook" ∉ updateList level a) := by
    by_cases h : 3 ≤ level
    · simp [h, mem_updateList_hook level a h]
    · tauto
  have h2 : ¬(5 ≤ level ∧ "Left Uppercut" ∉ updateList level a) := by
    by_cases h : 5 ≤ level
    · simp [h, mem_updateList_uppercut level a h]
    · tauto
  have h3 : ¬(7 ≤ level ∧ "Left Body" ∉ updateList level a) := by
    by_cases h : 7 ≤ level
    · simp [h, mem_updateList_body level a h]
    · tauto
  show updateBody level (updateUppercuts level (updateHooks level (updateList level a))) = _
  rw [show updateHooks level (updateList level a) = updateList level a from by
        unfold updateHooks; rw [if_neg h1],
      show updateUppercuts level (updateList level a) = updateList level a from by
        unfold updateUppercuts; rw [if_neg h2],
      show updateBody level (updateList level a) = updateList level a from by
        unfold updateBody; rw [if_neg h3]]

/-- The session list at level `L` is the closed-form unlock table. -/
theorem sessionAvail_eq (L : ℕ) : sessionAvail L = canonicalUnlocks L := by
  induction L with
  | zero => decide
  | succ L ih =>
    show updateList (L + 1) (sessionAvail L) = canonicalUnlocks (L + 1)
    rw [ih]
    rcases Nat.lt_or_ge L 7 with h | h
    · interval_cases L <;> decide
    · unfold canonicalUnlocks updateList updateHooks updateUppercuts updateBody
      simp [show 3 ≤ L from by omega, show 5 ≤ L from by omega, show 7 ≤ L from by omega,
        show 3 ≤ L + 1 from by omega, show 5 ≤ L + 1 from by omega,
        show 7 ≤ L + 1 from by omega]

/-- Membership of `x` in an `if`-guarded block. -/
theorem mem_ite_nil {x : String} {c : Prop} [Decidable c] {l : List String} :
    (x ∈ if c then l else []) ↔ c ∧ x ∈ l := by
  split <;> simp_all

/-- Unlock thresholds, read off the closed form. -/
theorem mem_sessionAvail (L : ℕ) :
    ("Left Hook" ∈ sessionAvail L ↔ 3 ≤ L) ∧ ("Right Hook" ∈ sessionAvail L ↔ 3 ≤ L) ∧
    ("Left Uppercut" ∈ sessionAvail L ↔ 5 ≤ L) ∧ ("Right Uppercut" ∈ sessionAvail L ↔ 5 ≤ L) ∧
    ("Left Body" ∈ sessionAvail L ↔ 7 ≤ L) ∧ ("Right Body" ∈ sessionAvail L ↔ 7 ≤ L) := by
  rw [sessionAvail_eq]
  unfold canonicalUnlocks
  refine ⟨?_, ?_, ?_, ?_, ?_, ?_⟩ <;> simp [List.mem_append, mem_ite_nil]

/-- Session unlock lists grow monotonically with the level reached. -/
theorem sessionAvail_mono {L1 L2 : ℕ} (h : L1 ≤ L2) : sessionAvail L1 ⊆ sessionAvail L2 := by
  induction L2, h using Nat.le_induction with
  | base => exact List.Subset.refl _
  | succ n hn ih => exact ih.trans (subset_updateList (n + 1) (sessionAvail n))

/-- A running drill at level 2, one hit short of the level quota, Jab target up. -/
def level2State : DrillState :=
  { initDrill with isRunning := true, level := 2, hitsInLevel := 9, totalHits := 19,
                   activePunch := some "Jab" }

/-- **C5.** The unlocked punch set is monotone in the level — for `L1 < L2` the
level-`L1` list is contained in the level-`L2` list — and no drill transition
removes a class (`handleHit` can only extend the list, `handleMiss` leaves it
unchanged); the unlock re-check is idempotent; hooks appear exactly from level
3, uppercuts from 5, body shots from 7; and concretely, the 10th hit at level 2
moves the drill to level 3 and the list gains `Left Hook` and `Right Hook`. -/
theorem claim5_unlock_monotone :
    (∀ L1 L2 : ℕ, L1 < L2 → sessionAvail L1 ⊆ sessionAvail L2) ∧
    (∀ (s : DrillState) (pd : PunchData) (now : ℚ),
      s.availablePunchTypes ⊆ ((handleHit s pd now).1).availablePunchTypes) ∧
    (∀ s : DrillState, (handleMiss s).availablePunchTypes = s.availablePunchTypes) ∧
    (∀ s : DrillState,
      updateAvailablePunches (updateAvailablePunches s) = updateAvailablePunches s) ∧
    (∀ L : ℕ,
      ("Left Hook" ∈ sessionAvail L ↔ 3 ≤ L) ∧ ("Right Hook" ∈ sessionAvail L ↔ 3 ≤ L) ∧
      ("Left Uppercut" ∈ sessionAvail L ↔ 5 ≤ L) ∧ ("Right Uppercut" ∈ sessionAvail L ↔ 5 ≤ L) ∧
      ("Left Body" ∈ sessionAvail L ↔ 7 ≤ L) ∧ ("Right Body" ∈ sessionAvail L ↔ 7 ≤ L)) ∧
    (((handleHit level2State ⟨none, none⟩ 0).1).level = 3 ∧
     ((handleHit level2State ⟨none, none⟩ 0).1).hitsInLevel = 0 ∧
     ((handleHit level2State ⟨none, none⟩ 0).1).availablePunchTypes =
       ["Jab", "Cross", "Left Hook", "Right Hook"]) := by
  refine ⟨?_, ?_, ?_, ?_, mem_sessionAvail, ?_⟩
  · intro L1 L2 h
    exact sessionAvail_mono (le_of_lt h)
  · intro s pd now
    simp only [handleHit, levelUp, updateAvailablePunches]
    split_ifs <;> simp <;> exact subset_updateList _ _
  · intro s
    simp only [handleMiss, resetCombo]
    split_ifs <;> rfl
  · intro s
    simp only [updateAvailablePunches]
    rw [updateList_idem]
  · refine ⟨?_, ?_, ?_⟩ <;>
      norm_num [handleHit, level2State, initDrill, jsOrDefault, hitsPerLevel, levelUp,
        updateAvailablePunches, updateList, updateHooks, updateUppercuts, updateBody,
        show ("Left Hook" : String) ≠ "Jab" from by decide,
        show ("Left Hook" : String) ≠ "Cross" from by decide]

/-- Witness for C5: level 1's unlock list is contained in level 3's. -/
theorem claim5_unlock_monotone_witness :
    sessionAvail 1 ⊆ sessionAvail 3 :=
  claim5_unlock_monotone.1 1 3 (by decide)

/-! ## C7 — stopping a drill and the session summary -/

/-- One externally visible drill event: a matching punch inside the reaction
window (the scheduler has announced a target — `Jab` here — and `handleHit`
runs), or a reaction timeout (`handleMiss`). -/
inductive DrillEvent where
  | hit (pd : PunchData) (now : ℚ)
  | miss
deriving DecidableEq

/-- Apply one event to the drill state. -/
def stepDrill (s : DrillState) : DrillEvent → DrillState
  | .hit pd now => (handleHit { s with activePunch := some "Jab" } pd now).1
  | .miss => handleMiss s

/-- Run a whole session from a starting state. -/
def runDrill (s : DrillState) (evs : List DrillEvent) : DrillState :=
  evs.foldl stepDrill s

/-- The largest combo count reached anywhere along the session. -/
def maxComboDuring (s : DrillState) (evs : List DrillEvent) : ℕ :=
  (evs.foldl (fun acc e =>
    let s2 := stepDrill acc.1 e
    (s2, max acc.2 s2.comboCount)) (s, s.comboCount)).2

/-- A session of five hits followed by one miss. -/
def fiveHitsThenMiss : List DrillEvent :=
  [.hit ⟨none, none⟩ 0, .hit ⟨none, none⟩ 0, .hit ⟨none, none⟩ 0,
   .hit ⟨none, none⟩ 0, .hit ⟨none, none⟩ 0, .miss]

/-- **C7.** `stop()` cancels the pending reaction timer and reports accuracy
`hits/(hits+misses)` (as a percentage; 0 when nothing was recorded) and the
level reached — but the `Max Combo` line of its summary prints the CURRENT
`comboCount`, not the maximum reached: after five hits (combo 5) and one miss
(combo reset to 0), the summary says `Max Combo: 0` although the session's
maximum combo was 5. -/
theorem claim7_stop_summary_bug :
    (stopDrill (runDrill (startDrill initDrill) fiveHitsThenMiss)).2.maxCombo = 0 ∧
    maxComboDuring (startDrill initDrill) fiveHitsThenMiss = 5 ∧
    (stopDrill (runDrill (startDrill initDrill) fiveHitsThenMiss)).2.accuracy = 250 / 3 ∧
    (stopDrill (runDrill (startDrill initDrill) fiveHitsThenMiss)).2.hits = 5 ∧
    (stopDrill (runDrill (startDrill initDrill) fiveHitsThenMiss)).2.misses = 1 ∧
    (stopDrill (runDrill (startDrill initDrill) fiveHitsThenMiss)).2.level = 1 ∧
    (stopDrill (runDrill (startDrill initDrill) fiveHitsThenMiss)).1.timeoutArmed = false ∧
    (stopDrill (runDrill (startDrill initDrill) fiveHitsThenMiss)).1.isRunning = false := by
  refine ⟨?_, ?_, ?_, ?_, ?_, ?_, ?_, ?_⟩ <;>
    norm_num [stopDrill, runDrill, maxComboDuring, fiveHitsThenMiss, stepDrill, startDrill,
      initDrill, resetStats, updateAvailablePunches, updateList, updateHooks, updateUppercuts,
      updateBody, handleHit, handleMiss, resetCombo, jsOrDefault, hitsPerLevel, levelUp,
      List.foldl]

/-! ## C9 — sequence mode (`ComboDrill` of `combo.js`, embedded in `src/README.md`) -/

/-- The sequence-mode state of a `ComboDrill` object: running flag, the current
combo's punch sequence (`null` before the first draw), and the step cursor. -/
structure ComboState where
  isRunning : Bool
  currentCombo : Option (List String)
  stepIndex : ℕ
deriving DecidableEq

/-- The string normalization of `ComboDrill.checkPunch`: lowercase and strip
whitespace (no abbreviation table here). -/
def normalizeComboName (s : String) : String :=
  stripSpaces (strToLower s)

/-- `ComboDrill.handleHit`: advance the step; on completing the sequence award
`100 × length` (the next combo is then drawn at random after a delay — the
synchronous result keeps the finished sequence with the cursor past its end). -/
def comboHandleHit (st : ComboState) : ComboState × ℕ :=
  match st.currentCombo with
  | none => (st, 0)
  | some seq =>
    let st2 := { st with stepIndex := st.stepIndex + 1 }
    if seq.length ≤ st2.stepIndex then (st2, 100 * seq.length) else (st2, 0)

/-- `ComboDrill.checkPunch`: nothing happens unless running with a drawn
sequence; a punch matching the required step (after normalization) is a hit,
anything else is silently ignored.  (When the cursor is past the sequence end
the source would fault on `undefined`; that arm is unreachable in the drill
loop and modelled as a no-op.) -/
def comboCheckPunch (st : ComboState) (detectedPunch : String) : ComboState × ℕ :=
  if st.isRunning = false ∨ st.currentCombo = none then (st, 0)
  else
    match st.currentCombo with
    | none => (st, 0)
    | some seq =>
      match seq.get? st.stepIndex with
      | none => (st, 0)
      | some requiredPunch =>
        if normalizeComboName detectedPunch = normalizeComboName requiredPunch then
          comboHandleHit st
        else (st, 0)

/-- **C9.** While a sequence is active, a detected punch advances `stepIndex`
iff its normalized name equals the expected step's; a non-matching punch
returns the state COMPLETELY unchanged with no points (sequence mode has no
miss path).  In the scenario — sequence [Jab, Cross, Left Hook], punches
arriving Jab, Left Hook, Cross — the Jab advances step 0, the Left Hook is
ignored, the Cross completes step 1, and the sequence remains incomplete
(cursor 2 of 3, no completion bonus paid). -/
theorem claim9_sequence_step :
    (∀ (st : ComboState) (seq : List String) (d : String),
      st.isRunning = true → st.currentCombo = some seq →
      ∀ hlt : st.stepIndex < seq.length,
      ((comboCheckPunch st d).1.stepIndex = st.stepIndex + 1 ↔
        normalizeComboName d = normalizeComboName (seq.get ⟨st.stepIndex, hlt⟩)) ∧
      (normalizeComboName d ≠ normalizeComboName (seq.get ⟨st.stepIndex, hlt⟩) →
        comboCheckPunch st d = (st, 0))) ∧
    ((comboCheckPunch ⟨true, some ["Jab", "Cross", "Left Hook"], 0⟩ "Jab").1.stepIndex = 1 ∧
     (comboCheckPunch ⟨true, some ["Jab", "Cross", "Left Hook"], 0⟩ "Jab").2 = 0 ∧
     (comboCheckPunch ⟨true, some ["Jab", "Cross", "Left Hook"], 1⟩ "Left Hook") =
       (⟨true, some ["Jab", "Cross", "Left Hook"], 1⟩, 0) ∧
     (comboCheckPunch ⟨true, some ["Jab", "Cross", "Left Hook"], 1⟩ "Cross").1.stepIndex = 2 ∧
     (comboCheckPunch ⟨true, some ["Jab", "Cross", "Left Hook"], 1⟩ "Cross").2 = 0 ∧
     (comboCheckPunch ⟨true, some ["Jab", "Cross", "Left Hook"], 1⟩ "Cross").1.currentCombo =
       some ["Jab", "Cross", "Left Hook"] ∧
     (2 : ℕ) < 3) := by
  constructor
  · intro st seq d hrun hseq hlt
    have hguard : ¬(st.isRunning = false ∨ st.currentCombo = none) := by
      simp [hrun, hseq]
    have hget : seq.get? st.stepIndex = some (seq.get ⟨st.stepIndex, hlt⟩) :=
      List.get?_eq_get hlt
    constructor
    · simp only [comboCheckPunch, if_neg hguard, hseq, hget, comboHandleHit]
      split_ifs with hd <;> simp_all
    · intro hne
      unfold comboCheckPunch
      rw [if_neg hguard, hseq]
      dsimp only
      rw [hget]
      dsimp only
      rw [if_neg hne]
  · refine ⟨?_, ?_, ?_, ?_, ?_, ?_, ?_⟩ <;> decide

/-- Witness for C9: the first Jab of the scenario advances the cursor. -/
theorem claim9_sequence_step_witness :
    (comboCheckPunch ⟨true, some ["Jab", "Cross", "Left Hook"], 0⟩ "Jab").1.stepIndex = 0 + 1 :=
  ((claim9_sequence_step.1 ⟨true, some ["Jab", "Cross", "Left Hook"], 0⟩
      ["Jab", "Cross", "Left Hook"] "Jab" rfl rfl (by decide)).1).mpr (by decide)

/-! ## C10 — the arcade classifier never produces a body shot -/

/-- No normalized arcade output collides with a normalized body-shot name. -/
theorem norm_no_body :
    ∀ d ∈ PUNCH_TYPES,
      normalizePunchName d ≠ normalizePunchName "Left Body" ∧
      normalizePunchName d ≠ normalizePunchName "Right Body" := by decide

/-- A running drill announcing a `Left Body` target. -/
def bodyTargetState : DrillState :=
  { initDrill with isRunning := true, activePunch := some "Left Body" }

/-- **C10.** The arcade `detectPunch` only ever returns one of its six
`PUNCH_TYPES` — never `Left Body` or `Right Body` — while the drill's unlock
table adds both body-shot targets at level ≥ 7; and no arcade output can match
a body-shot target in `checkPunch` (so such a target can only time out). -/
theorem claim10_arcade_no_body :
    (∀ (f : ArcadeFrame) (c : Cooldown) (now : ℚ) (p : String),
      (detectPunch f c now).1 = some p → p ∈ PUNCH_TYPES) ∧
    ("Left Body" ∉ PUNCH_TYPES ∧ "Right Body" ∉ PUNCH_TYPES) ∧
    (∀ L : ℕ, 7 ≤ L → "Left Body" ∈ sessionAvail L ∧ "Right Body" ∈ sessionAvail L) ∧
    (∀ (s : DrillState) (d : String) (pd : PunchData) (now : ℚ),
      s.activePunch = some "Left Body" ∨ s.activePunch = some "Right Body" →
      d ∈ PUNCH_TYPES → checkPunch s d pd now = (s, 0)) := by
  refine ⟨?_, by decide, ?_, ?_⟩
  · intro f c now p h
    rw [detectPunch_eq_chain, detectChain_fst canPunch canPunch_frozen] at h
    rcases Option.map_eq_some'.mp h with ⟨pr, hfind, rfl⟩
    have hmem := List.mem_of_find?_eq_some hfind
    simp only [arcadePriority, List.mem_cons, List.not_mem_nil, or_false] at hmem
    rcases hmem with rfl | rfl | rfl | rfl | rfl | rfl <;> simp [PUNCH_TYPES]
  · intro L hL
    exact ⟨((mem_sessionAvail L).2.2.2.2.1).mpr hL, ((mem_sessionAvail L).2.2.2.2.2).mpr hL⟩
  · intro s d pd now hap hd
    by_cases hg : s.isRunning = false ∨ s.activePunch = none
    · simp [checkPunch, hg]
    · rcases hap with h | h
      · unfold checkPunch
        rw [if_neg hg, h]
        dsimp only
        rw [if_neg ((norm_no_body d hd).1)]
      · unfold checkPunch
        rw [if_neg hg, h]
        dsimp only
        rw [if_neg ((norm_no_body d hd).2)]

/-- Witness for C10: an arcade-detectable Jab does not hit a `Left Body` target. -/
theorem claim10_arcade_no_body_witness :
    checkPunch bodyTargetState "Jab" ⟨none, none⟩ 0 = (bodyTargetState, 0) :=
  claim10_arcade_no_body.2.2.2 bodyTargetState "Jab" ⟨none, none⟩ 0 (Or.inl rfl) (by decide)
